import Mathlib

/-!
Verification development for the 3x-ui panel client
(`src/services/xui_client.py`).

The Python module manipulates loosely typed JSON envelopes, so we embed a
`Json` value type with Python-`dict.get` style access, then translate each
method of `XUIClient` into a pure function.  Network effects are made
explicit: every Python `await self._make_request(...)` becomes a parameter
holding the response the panel would have produced, and `json.loads` is a
parameter `decode : String → Option Json` (returning `none` exactly when
the Python call would raise `json.JSONDecodeError`).
-/

set_option maxHeartbeats 1000000

namespace XUI

/-- JSON values as delivered by the panel (Python objects after
`response.json()`).  Numbers are integers: the fields the client touches
(ports, traffic counters, ids) are integral. -/
inductive Json where
  | null
  | bool (b : Bool)
  | num (n : Int)
  | str (s : String)
  | arr (elems : List Json)
  | obj (fields : List (String × Json))

/-- Python truthiness (`if x:`) for the JSON values above:
`None`, `False`, `0`, `""`, `[]`, and the empty dict are falsy. -/
def Json.truthy : Json → Bool
  | .null => false
  | .bool b => b
  | .num n => n != 0
  | .str s => s != ""
  | .arr [] => false
  | .arr (_ :: _) => true
  | .obj [] => false
  | .obj (_ :: _) => true

/-- `d.get(k)` on a Python dict: the stored value, or `None` when the key is
absent (we also answer `None` when the receiver is not a dict, a case the
translated code never reaches on well-formed data). -/
def jget (j : Json) (k : String) : Json :=
  match j with
  | .obj fields =>
    match fields.lookup k with
    | some v => v
    | none => .null
  | _ => .null

/-- `d.get(k, default)`: the stored value, or `default` when absent. -/
def jgetD (j : Json) (k : String) (d : Json) : Json :=
  match j with
  | .obj fields =>
    match fields.lookup k with
    | some v => v
    | none => d
  | _ => d

/-- Python `str(x)` as used in f-strings and `urlencode` for the values the
client actually interpolates (`None`, booleans, numbers, strings).
Containers never reach an interpolation site on well-formed data; we give
them an empty rendering. -/
def pyStr : Json → String
  | .null => "None"
  | .bool true => "True"
  | .bool false => "False"
  | .num n => toString n
  | .str s => s
  | .arr _ => ""
  | .obj _ => ""

/-- The stored string under `k`, or `d` when the key is absent or does not
hold a string (the Python code would only ever see a string here). -/
def jstrD (j : Json) (k : String) (d : String) : String :=
  match jgetD j k (.str d) with
  | .str s => s
  | _ => d

/-- The stored integer under `k`, or `d` when absent
(`obj.get(k, 0)` on the traffic envelope). -/
def jintD (j : Json) (k : String) (d : Int) : Int :=
  match jgetD j k (.num d) with
  | .num n => n
  | _ => d

/-- The element list of a JSON array, `[]` otherwise. -/
def jelems : Json → List Json
  | .arr elems => elems
  | _ => []

/-- `result.get('msg', 'Unknown error')` as a string. -/
def jmsg (r : Json) : String :=
  match jget r "msg" with
  | .str s => s
  | _ => "Unknown error"

/-! ## Request executor (`XUIClient._make_request`) -/

/-- What the network hands back for one HTTP call: a status code with a
response body (`none` when `response.json()` would fail to parse), or a
transport-level failure (`httpx.RequestError`). -/
inductive NetResult where
  | response (status : Nat) (body : Option Json)
  | netFailure

/-- Outcome of `_make_request`: the parsed body, or one of the raised
`XUIClientError` variants. -/
inductive ReqOutcome where
  | ok (body : Json)
  | apiError (status : Nat)
  | networkError
  | parseError
  | loginError

/-- Trace of one top-level `_make_request` call: its outcome, how many
re-logins it performed, and how many HTTP calls it issued. -/
structure RequestTrace where
  outcome : ReqOutcome
  logins : Nat
  httpCalls : Nat

/-- `_make_request` with `retry_on_auth_error=False` (the recursive call of
the source): a 401 here falls into the generic `status >= 400` branch and
is raised as `apiError`. -/
def makeRequestNoRetry (r : NetResult) : ReqOutcome :=
  match r with
  | .netFailure => .networkError
  | .response status body =>
    if 400 ≤ status then .apiError status
    else
      match body with
      | some j => .ok j
      | none => .parseError

/-- `_make_request` with the default `retry_on_auth_error=True`.
`first` is the response to the initial HTTP call; on a 401 the client
re-logins (`loginOk` tells whether `login()` succeeds; a failed login
raises and aborts the retry) and issues exactly one more call, answered by
`retryResponse` and processed with the retry flag off. -/
def makeRequest (loginOk : Bool) (first retryResponse : NetResult) :
    RequestTrace :=
  match first with
  | .netFailure => ⟨.networkError, 0, 1⟩
  | .response status body =>
    if status = 401 then
      if loginOk then ⟨makeRequestNoRetry retryResponse, 1, 2⟩
      else ⟨.loginError, 1, 1⟩
    else if 400 ≤ status then ⟨.apiError status, 0, 1⟩
    else
      match body with
      | some j => ⟨.ok j, 0, 1⟩
      | none => ⟨.parseError, 0, 1⟩

/-! ## Inbound listing and the cross-inbound scan -/

/-- `client.get("email") == email` — true exactly when the stored value is
the string `email` (comparing a non-string to a Python `str` is `False`). -/
def isEmailMatch (c : Json) (email : String) : Bool :=
  match jget c "email" with
  | .str s => s == email
  | _ => false

/-- `XUIClient.get_inbound_list`, applied to the envelope the panel
returned for `GET /panel/api/inbounds/list`: on a truthy `success` flag the
`obj` list (`result.get("obj", [])`), otherwise the empty list. -/
def get_inbound_list (result : Json) : List Json :=
  if (jget result "success").truthy then jelems (jgetD result "obj" (.arr []))
  else []

/-- The value `find_client_in_all_inbounds` builds on a hit. -/
structure FoundClient where
  inbound_id : Json
  inbound_remark : Json
  client : Json

/-- The serialized settings of one inbound: `inbound.get("settings", "{}")`.
(A non-string settings value is not part of a well-formed listing; we hand
the decoder the empty string there.) -/
def inboundSettingsStr (inbound : Json) : String :=
  match jgetD inbound "settings" (.str "\x7b\x7d") with
  | .str s => s
  | _ => ""

/-- The loop body of `XUIClient.find_client_in_all_inbounds`: walk the
inbounds in list order; decode each one's settings with `decode`
(`json.loads`), `continue` on a decode failure, and return the first
client whose `email` matches. -/
def findClientInInbounds (decode : String → Option Json) (email : String) :
    List Json → Option FoundClient
  | [] => none
  | inbound :: rest =>
    match decode (inboundSettingsStr inbound) with
    | none => findClientInInbounds decode email rest
    | some settingsDict =>
      let clients := jelems (jgetD settingsDict "clients" (.arr []))
      match clients.find? (fun c => isEmailMatch c email) with
      | some c =>
        some { inbound_id := jget inbound "id"
               inbound_remark := jgetD inbound "remark" (.str "Unknown")
               client := c }
      | none => findClientInInbounds decode email rest

/-- `XUIClient.find_client_in_all_inbounds`: list the inbounds (from the
panel's listing envelope `listResp`) and scan them. -/
def find_client_in_all_inbounds (decode : String → Option Json)
    (listResp : Json) (email : String) : Option FoundClient :=
  findClientInInbounds decode email (get_inbound_list listResp)

/-- Specification-side view of one inbound's decoded client list: empty
when the settings blob fails to decode. -/
def decodedClients (decode : String → Option Json) (inbound : Json) :
    List Json :=
  match decode (inboundSettingsStr inbound) with
  | none => []
  | some settingsDict => jelems (jgetD settingsDict "clients" (.arr []))

/-- Specification-side predicate: this inbound's decoded client list
contains a client labelled `email`. -/
def inboundHasClient (decode : String → Option Json) (email : String)
    (inbound : Json) : Bool :=
  (decodedClients decode inbound).any (fun c => isEmailMatch c email)

/-! ## Traffic query (`XUIClient.get_client_traffic`) -/

/-- Traffic sample returned to callers. -/
structure Traffic where
  up : Int
  down : Int
  total : Int
deriving DecidableEq, Repr

/-- `XUIClient.get_client_traffic`, applied to the envelope for
`GET /panel/api/inbounds/getClientTraffics/{email}`: with a truthy
`success` and a truthy `obj`, the up/down counters (defaulting absent ones
to 0) and their sum; otherwise the zeroed sample. -/
def get_client_traffic (result : Json) : Traffic :=
  if (jget result "success").truthy && (jget result "obj").truthy then
    let obj := jget result "obj"
    { up := jintD obj "up" 0
      down := jintD obj "down" 0
      total := jintD obj "up" 0 + jintD obj "down" 0 }
  else ⟨0, 0, 0⟩

/-! ## Character-list utilities for the string manipulation the client does
(`re.search`, `str.replace`, `str.strip`, substring tests). -/

/-- `pat` is a prefix of `l`. -/
def isPrefixL : List Char → List Char → Bool
  | [], _ => true
  | _ :: _, [] => false
  | a :: as, b :: bs => a == b && isPrefixL as bs

/-- `pat in s` — `pat` occurs as a contiguous substring of `l`. -/
def hasSubstrL (pat : List Char) : List Char → Bool
  | [] => isPrefixL pat []
  | c :: rest => isPrefixL pat (c :: rest) || hasSubstrL pat rest

/-- `pat in s` on strings (Python's `in` operator). -/
def strContains (pat s : String) : Bool :=
  hasSubstrL pat.data s.data

/-- Python `str.strip()` (whitespace from both ends). -/
def stripChars (l : List Char) : List Char :=
  ((l.dropWhile Char.isWhitespace).reverse.dropWhile Char.isWhitespace).reverse

/-- `re.search(pat ++ "(.+)", msg)` for a literal `pat`: scan for the first
position where `pat` occurs followed by at least one character before the
end of the line, and return that line remainder (the capture group). -/
def searchCapture (pat : List Char) : List Char → Option (List Char)
  | [] => none
  | c :: rest =>
    if isPrefixL pat (c :: rest) then
      let line := ((c :: rest).drop pat.length).takeWhile (fun ch => ch != '\n')
      if line.isEmpty then searchCapture pat rest else some line
    else searchCapture pat rest

/-- The duplicate-email extraction of `XUIClient.create_client`:
`re.search(r'Duplicate email: (.+)', error_msg)` followed by `.strip()` on
the captured group. -/
def extractDuplicateEmail (msg : String) : Option String :=
  match searchCapture "Duplicate email: ".data msg.data with
  | none => none
  | some captured => some (String.mk (stripChars captured))

/-! ## Client creation (`XUIClient.create_client`) -/

/-- The `XUIClientError`s `create_client` can raise, by reason.  The source
raises one exception class with distinct messages; `duplicateClient` covers
both duplicate messages (label = the found inbound's remark on the
pre-check path, label = the provider's extracted conflicting email on the
provider-reported path). -/
inductive CreateError where
  | duplicateClient (email : String) (label : Json)
  | otherFailure (msg : String)

/-- Result of `create_client` plus whether the `addClient` endpoint was
contacted. -/
structure CreateOutcome where
  result : Except CreateError Bool
  contactedCreateEndpoint : Bool

/-- `XUIClient.create_client` for label `email`: first the cross-inbound
pre-check over the listing envelope `listResp`; on a hit, fail with the
duplicate error carrying the found inbound's remark, without contacting the
create endpoint.  Otherwise POST `addClient` (answered by `addResp`): a
truthy `success` returns `True`; a failure whose message carries the
`Duplicate email: ...` signal fails with the duplicate error carrying the
extracted label; any other failure is a generic error. -/
def create_client (decode : String → Option Json) (listResp : Json)
    (email : String) (addResp : Json) : CreateOutcome :=
  match find_client_in_all_inbounds decode listResp email with
  | some existing =>
    ⟨.error (.duplicateClient email existing.inbound_remark), false⟩
  | none =>
    if (jget addResp "success").truthy then ⟨.ok true, true⟩
    else
      let errorMsg := jmsg addResp
      if strContains "Duplicate email" errorMsg then
        match extractDuplicateEmail errorMsg with
        | some dup => ⟨.error (.duplicateClient email (.str dup)), true⟩
        | none => ⟨.error (.otherFailure errorMsg), true⟩
      else ⟨.error (.otherFailure errorMsg), true⟩

/-! ## Deletion -/

/-- `XUIClient.delete_client`, applied to the envelope of the delete call:
`True` on a truthy `success`, otherwise the raised error message. -/
def delete_client (deleteResp : Json) : Except String Bool :=
  if (jget deleteResp "success").truthy then .ok true
  else .error (jmsg deleteResp)

/-- `XUIClient.delete_client_from_all_inbounds`: scan for the label; absent
labels answer `False` (no error); otherwise delete, turning any raised
error into `False`. -/
def delete_client_from_all_inbounds (decode : String → Option Json)
    (listResp : Json) (email : String) (deleteResp : Json) : Bool :=
  match find_client_in_all_inbounds decode listResp email with
  | none => false
  | some _ =>
    match delete_client deleteResp with
    | .ok _ => true
    | .error _ => false

/-! ## Encoding primitives used by the link builders
(`urllib.parse.quote/quote_plus/urlencode`, `base64.b64encode`,
`json.dumps`, `str.lower`, `str.replace`). -/

/-- Hex digit, uppercase (percent-escapes). -/
def hexUpper (n : Nat) : Char :=
  "0123456789ABCDEF".data.getD n '0'

/-- Hex digit, lowercase (`\uXXXX` escapes of `json.dumps`). -/
def hexLower (n : Nat) : Char :=
  "0123456789abcdef".data.getD n '0'

/-- UTF-8 bytes of one code point. -/
def utf8Bytes (n : Nat) : List Nat :=
  if n < 128 then [n]
  else if n < 2048 then [192 + n / 64, 128 + n % 64]
  else if n < 65536 then [224 + n / 4096, 128 + n / 64 % 64, 128 + n % 64]
  else [240 + n / 262144, 128 + n / 4096 % 64, 128 + n / 64 % 64, 128 + n % 64]

/-- `%XX` escape of one byte. -/
def percentByte (b : Nat) : List Char :=
  ['%', hexUpper (b / 16), hexUpper (b % 16)]

/-- `urllib.parse.quote` never escapes ASCII alphanumerics, `_.-~`, or the
characters of `safe`. -/
def quoteSafeChar (safe : List Char) (c : Char) : Bool :=
  c.isAlphanum || c == '_' || c == '.' || c == '-' || c == '~' || safe.contains c

/-- `urllib.parse.quote(s, safe)`: percent-escape the UTF-8 bytes of every
character outside the safe set. -/
def pyQuote (safe : String) (s : String) : String :=
  String.mk ((s.data.map (fun c =>
    if quoteSafeChar safe.data c then [c]
    else ((utf8Bytes c.toNat).map percentByte).flatten)).flatten)

/-- `urllib.parse.quote_plus(s, safe)`: like `quote` but spaces become
`+` (spaces are kept by quoting with `safe + ' '`, then replaced). -/
def pyQuotePlus (safe : String) (s : String) : String :=
  if s.data.contains ' ' then
    String.mk ((pyQuote (safe ++ " ") s).data.map
      (fun c => if c == ' ' then '+' else c))
  else pyQuote safe s

/-- One `k=v` item of `urllib.parse.urlencode(params, safe=safe)` (its
default `quote_via` is `quote_plus`). -/
def urlencodePair (safe : String) (p : String × String) : String :=
  pyQuotePlus safe p.1 ++ "=" ++ pyQuotePlus safe p.2

/-- `urllib.parse.urlencode(params, safe=safe)`: the items joined
with `&` in insertion order. -/
def urlencode (safe : String) : List (String × String) → String
  | [] => ""
  | [p] => urlencodePair safe p
  | p :: q :: rest => urlencodePair safe p ++ "&" ++ urlencode safe (q :: rest)

/-- Base64 alphabet. -/
def b64Char (n : Nat) : Char :=
  "ABCDEFGHIJKLMNOPQRSTUVWXYZabcdefghijklmnopqrstuvwxyz0123456789+/".data.getD n 'A'

/-- Standard base64 of a byte list, with `=` padding. -/
def b64encodeBytes : List Nat → List Char
  | [] => []
  | [b1] => [b64Char (b1 / 4), b64Char (b1 % 4 * 16), '=', '=']
  | [b1, b2] =>
    [b64Char (b1 / 4), b64Char (b1 % 4 * 16 + b2 / 16), b64Char (b2 % 16 * 4), '=']
  | b1 :: b2 :: b3 :: rest =>
    b64Char (b1 / 4) :: b64Char (b1 % 4 * 16 + b2 / 16) ::
      b64Char (b2 % 16 * 4 + b3 / 64) :: b64Char (b3 % 64) :: b64encodeBytes rest

/-- UTF-8 bytes of a string. -/
def strBytes (s : String) : List Nat :=
  (s.data.map (fun c => utf8Bytes c.toNat)).flatten

/-- `base64.b64encode(s.encode()).decode()`. -/
def b64encode (s : String) : String :=
  String.mk (b64encodeBytes (strBytes s))

/-- `\uXXXX` escape. -/
def uEscape (n : Nat) : List Char :=
  ['\\', 'u', hexLower (n / 4096 % 16), hexLower (n / 256 % 16),
   hexLower (n / 16 % 16), hexLower (n % 16)]

/-- How `json.dumps` (default `ensure_ascii=True`) renders one character
inside a string literal. -/
def jsonEscapeChar (c : Char) : List Char :=
  if c == '"' then ['\\', '"']
  else if c == '\\' then ['\\', '\\']
  else if c == '\n' then ['\\', 'n']
  else if c == '\t' then ['\\', 't']
  else if c == '\r' then ['\\', 'r']
  else if c.toNat == 8 then ['\\', 'b']
  else if c.toNat == 12 then ['\\', 'f']
  else if c.toNat < 32 || c.toNat > 126 then
    if c.toNat ≥ 65536 then
      uEscape (55296 + (c.toNat - 65536) / 1024)
        ++ uEscape (56320 + (c.toNat - 65536) % 1024)
    else uEscape c.toNat
  else [c]

/-- A `json.dumps` string literal. -/
def jsonQuoteStr (s : String) : String :=
  String.mk ('"' :: ((s.data.map jsonEscapeChar).flatten ++ ['"']))

mutual

/-- `json.dumps` with its default separators `', '` and `': '`. -/
def jsonDumps : Json → String
  | .null => "null"
  | .bool true => "true"
  | .bool false => "false"
  | .num n => toString n
  | .str s => jsonQuoteStr s
  | .arr elems => "[" ++ jsonDumpsElems elems ++ "]"
  | .obj fields => "\x7b" ++ jsonDumpsFields fields ++ "\x7d"

/-- Array elements of `json.dumps`. -/
def jsonDumpsElems : List Json → String
  | [] => ""
  | [x] => jsonDumps x
  | x :: y :: rest => jsonDumps x ++ ", " ++ jsonDumpsElems (y :: rest)

/-- Object entries of `json.dumps`. -/
def jsonDumpsFields : List (String × Json) → String
  | [] => ""
  | [(k, v)] => jsonQuoteStr k ++ ": " ++ jsonDumps v
  | (k, v) :: f :: rest =>
    jsonQuoteStr k ++ ": " ++ jsonDumps v ++ ", " ++ jsonDumpsFields (f :: rest)

end

/-- Python `str.lower()` (the client only lowercases ASCII protocol tags). -/
def lowerStr (s : String) : String :=
  String.mk (s.data.map Char.toLower)

/-- Python `str.replace(pat, repl)` — every occurrence, left to right. -/
def replaceAllL (pat repl : List Char) : List Char → List Char
  | [] => []
  | c :: rest =>
    if 1 ≤ pat.length && isPrefixL pat (c :: rest) then
      repl ++ replaceAllL pat repl (rest.drop (pat.length - 1))
    else c :: replaceAllL pat repl rest
termination_by l => l.length
decreasing_by
all_goals simp [List.length_drop]
all_goals omega

/-! ## Server-address resolution shared by the protocol builders -/

/-- `self.base_url.replace("https://", "").replace("http://", "").split(":")[0]`. -/
def baseUrlHost (base_url : String) : String :=
  String.mk ((replaceAllL "http://".data []
    (replaceAllL "https://".data [] base_url.data)).takeWhile (fun c => c != ':'))

/-- `server == "0.0.0.0" or server == ""` on the raw `listen` value. -/
def isWildcardListen : Json → Bool
  | .str s => s == "0.0.0.0" || s == ""
  | _ => false

/-- Server address of `_build_vless_link` (source lines 481–484):
`inbound.get("listen", "0.0.0.0")`, replaced by the host part of the base
URL when empty or the wildcard. -/
def vless_server (base_url : String) (inbound : Json) : String :=
  let server := jgetD inbound "listen" (.str "0.0.0.0")
  if isWildcardListen server then baseUrlHost base_url else pyStr server

/-- Server address of `_build_vmess_link` (source lines 581–583). -/
def vmess_server (base_url : String) (inbound : Json) : String :=
  let server := jgetD inbound "listen" (.str "0.0.0.0")
  if isWildcardListen server then baseUrlHost base_url else pyStr server

/-- Server address of `_build_trojan_link` (source lines 629–631). -/
def trojan_server (base_url : String) (inbound : Json) : String :=
  let server := jgetD inbound "listen" (.str "0.0.0.0")
  if isWildcardListen server then baseUrlHost base_url else pyStr server

/-! ## VLESS builder (`XUIClient._build_vless_link`) -/

/-- `",".flatten(alpn)`. -/
def joinComma (elems : List Json) : String :=
  String.intercalate "," (elems.map pyStr)

/-- `header_type != "none"` is false exactly on the string `"none"`. -/
def headerTypeIsNone : Json → Bool
  | .str s => s == "none"
  | _ => false

/-- The security-dependent query parameters of the vless builder, in
insertion order. -/
def vless_security_params (stream_settings : Json) (security : String) :
    List (String × String) :=
  if security == "tls" then
    let tls_settings := jgetD stream_settings "tlsSettings" (.obj [])
    let sni := jgetD tls_settings "serverName" (.str "")
    let alpn := jelems (jgetD tls_settings "alpn" (.arr []))
    [("security", "tls")]
      ++ (if sni.truthy then [("sni", pyStr sni)] else [])
      ++ (if alpn.isEmpty then [] else [("alpn", joinComma alpn)])
  else if security == "reality" then
    let reality_settings := jgetD stream_settings "realitySettings" (.obj [])
    let pbk := jgetD reality_settings "publicKey" (.str "")
    let fp := jgetD reality_settings "fingerprint" (.str "")
    let server_names := jelems (jgetD reality_settings "serverNames" (.arr []))
    let short_ids := jelems (jgetD reality_settings "shortIds" (.arr []))
    let spider_x := jgetD reality_settings "spiderX" (.str "")
    [("security", "reality")]
      ++ (if pbk.truthy then [("pbk", pyStr pbk)] else [])
      ++ (if fp.truthy then [("fp", pyStr fp)] else [])
      ++ (match server_names with
          | [] => []
          | sn :: _ => [("sni", pyStr sn)])
      ++ (match short_ids with
          | [] => []
          | sid :: _ => [("sid", pyStr sid)])
      ++ (if spider_x.truthy then [("spx", pyQuote "/" (pyStr spider_x))] else [])
  else []

/-- The network-dependent query parameters of the vless builder, in
insertion order. -/
def vless_network_params (stream_settings : Json) (network : String) :
    List (String × String) :=
  if network == "ws" then
    let ws_settings := jgetD stream_settings "wsSettings" (.obj [])
    let path := jgetD ws_settings "path" (.str "/")
    let headers := jgetD ws_settings "headers" (.obj [])
    let host := jgetD headers "Host" (.str "")
    [("path", pyQuote "/" (pyStr path))]
      ++ (if host.truthy then [("host", pyStr host)] else [])
  else if network == "grpc" then
    let grpc_settings := jgetD stream_settings "grpcSettings" (.obj [])
    let service_name := jgetD grpc_settings "serviceName" (.str "")
    if service_name.truthy then [("serviceName", pyStr service_name)] else []
  else if network == "tcp" then
    let tcp_settings := jgetD stream_settings "tcpSettings" (.obj [])
    let header := jgetD tcp_settings "header" (.obj [])
    let header_type := jgetD header "type" (.str "none")
    if headerTypeIsNone header_type then [] else [("headerType", pyStr header_type)]
  else []

/-- The full `params` dict of the vless builder in insertion order:
`type` and `encryption=none`, the security block, `flow` when truthy,
then the network block (all keys distinct, so insertion order is list
order). -/
def vless_params (stream_settings : Json) (network security : String)
    (flow : Json) : List (String × String) :=
  [("type", network), ("encryption", "none")]
    ++ vless_security_params stream_settings security
    ++ (if flow.truthy then [("flow", pyStr flow)] else [])
    ++ vless_network_params stream_settings network

/-- `XUIClient._build_vless_link`. -/
def build_vless_link (base_url : String) (client inbound stream_settings : Json)
    (port : Json) (network security : String) : String :=
  let uuid := jget client "id"
  let email := jstrD client "email" ""
  let flow := jgetD client "flow" (.str "")
  let server := vless_server base_url inbound
  let query_string := urlencode "/:," (vless_params stream_settings network security flow)
  "vless://" ++ pyStr uuid ++ "@" ++ server ++ ":" ++ pyStr port ++ "?"
    ++ query_string ++ "#" ++ pyQuote "/" email

/-! ## VMess builder (`XUIClient._build_vmess_link`) -/

/-- Python dict assignment to an existing key: value replaced in place,
order kept. -/
def setKey (l : List (String × Json)) (k : String) (v : Json) :
    List (String × Json) :=
  l.map (fun p => if p.1 == k then (k, v) else p)

/-- The `vmess_config` dict of `_build_vmess_link`, in insertion order:
eleven fixed keys, with `path` and `host` overwritten from the ws settings
when the transport is `ws`. -/
def vmess_config (base_url : String) (client inbound stream_settings : Json)
    (port : Json) (network security : String) : List (String × Json) :=
  let uuid := jget client "id"
  let email := jstrD client "email" ""
  let server := vmess_server base_url inbound
  let cfg : List (String × Json) :=
    [("v", .str "2"), ("ps", .str email), ("add", .str server),
     ("port", .str (pyStr port)), ("id", uuid), ("aid", .str "0"),
     ("net", .str network), ("type", .str "none"), ("host", .str ""),
     ("path", .str ""), ("tls", .str (if security == "tls" then security else ""))]
  if network == "ws" then
    let ws_settings := jgetD stream_settings "wsSettings" (.obj [])
    let cfg := setKey cfg "path" (jgetD ws_settings "path" (.str "/"))
    setKey cfg "host" (jgetD (jgetD ws_settings "headers" (.obj [])) "Host" (.str ""))
  else cfg

/-- `XUIClient._build_vmess_link`: `vmess://` + base64 of the JSON dump of
the config dict. -/
def build_vmess_link (base_url : String) (client inbound stream_settings : Json)
    (port : Json) (network security : String) : String :=
  "vmess://" ++ b64encode (jsonDumps (.obj
    (vmess_config base_url client inbound stream_settings port network security)))

/-! ## Trojan builder (`XUIClient._build_trojan_link`) -/

/-- `XUIClient._build_trojan_link`. -/
def build_trojan_link (base_url : String) (client inbound stream_settings : Json)
    (port : Json) (network security : String) : String :=
  let password := jgetD client "password" (.str "")
  let email := jstrD client "email" ""
  let server := trojan_server base_url inbound
  let params := [("type", network), ("security", security)]
    ++ (if security == "tls" then
          let tls_settings := jgetD stream_settings "tlsSettings" (.obj [])
          let sni := jgetD tls_settings "serverName" (.str "")
          if sni.truthy then [("sni", pyStr sni)] else []
        else [])
  "trojan://" ++ pyStr password ++ "@" ++ server ++ ":" ++ pyStr port ++ "?"
    ++ urlencode "" params ++ "#" ++ pyQuote "/" email

/-! ## Link dispatch (`XUIClient.get_client_link`) -/

/-- `XUIClient.get_client_link`, applied to the envelope `inbound_data`
for `GET /panel/api/inbounds/get/{id}`.  Every failure path of the source
(`success` falsy, missing `obj`, undecodable settings — the whole body
sits in a `try/except` that returns `None` —, client not found,
unsupported protocol) yields `none`. -/
def get_client_link (decode : String → Option Json) (base_url : String)
    (inbound_data : Json) (email : String) : Option String :=
  if !(jget inbound_data "success").truthy then none
  else
    let obj := jget inbound_data "obj"
    if !obj.truthy then none
    else
      let settingsDecoded : Option Json :=
        match jgetD obj "settings" (.str "\x7b\x7d") with
        | .str s => decode s
        | _ => none
      match settingsDecoded with
      | none => none
      | some settingsDict =>
        let clients := jelems (jgetD settingsDict "clients" (.arr []))
        match clients.find? (fun c => isEmailMatch c email) with
        | none => none
        | some target =>
          let protocol := lowerStr (jstrD obj "protocol" "")
          let port := jget obj "port"
          let streamDecoded : Option Json :=
            match jgetD obj "streamSettings" (.str "\x7b\x7d") with
            | .str s => decode s
            | j => some j
          match streamDecoded with
          | none => none
          | some stream_settings =>
            let network := pyStr (jgetD stream_settings "network" (.str "tcp"))
            let security := pyStr (jgetD stream_settings "security" (.str "none"))
            if protocol == "vless" then
              some (build_vless_link base_url target obj stream_settings port network security)
            else if protocol == "vmess" then
              some (build_vmess_link base_url target obj stream_settings port network security)
            else if protocol == "trojan" then
              some (build_trojan_link base_url target obj stream_settings port network security)
            else none

/-! ## Theorems -/

/-- C1: Through `_make_request` with retry enabled, at most one re-login
ever happens; a 401 on the first response triggers exactly one re-login
and (when the login succeeds) exactly one retried call, two HTTP calls in
total; a second 401 on the retried call propagates as the generic
`apiError 401` instead of looping; and a non-401 first response performs
no login and no extra call. -/
theorem c1_single_auth_retry (loginOk : Bool) (first second : NetResult) :
    (makeRequest loginOk first second).logins ≤ 1 ∧
    (∀ b, first = .response 401 b → (makeRequest loginOk first second).logins = 1) ∧
    (∀ b, first = .response 401 b → loginOk = true →
      (makeRequest loginOk first second).httpCalls = 2) ∧
    (∀ b b₂, first = .response 401 b → second = .response 401 b₂ → loginOk = true →
      (makeRequest loginOk first second).outcome = .apiError 401) ∧
    (∀ s b, first = .response s b → s ≠ 401 →
      (makeRequest loginOk first second).logins = 0 ∧
      (makeRequest loginOk first second).httpCalls = 1) := by
  refine ⟨?_, ?_, ?_, ?_, ?_⟩
  · cases first with
    | netFailure => simp [makeRequest]
    | response s b =>
      simp only [makeRequest]
      split
      · cases loginOk <;> simp
      · split
        · simp
        · cases b <;> simp
  · rintro b rfl
    cases loginOk <;> simp [makeRequest]
  · rintro b rfl rfl
    simp [makeRequest]
  · rintro b b₂ rfl rfl rfl
    simp [makeRequest, makeRequestNoRetry]
  · rintro s b rfl hs
    simp only [makeRequest]
    rw [if_neg hs]
    split
    · exact ⟨rfl, rfl⟩
    · cases b <;> exact ⟨rfl, rfl⟩

/-- Witness for C1 at a concrete run: first response 401, successful
re-login, retried response again 401. -/
theorem c1_single_auth_retry_witness :
    (makeRequest true (.response 401 none) (.response 401 none)).logins = 1 ∧
    (makeRequest true (.response 401 none) (.response 401 none)).httpCalls = 2 ∧
    (makeRequest true (.response 401 none) (.response 401 none)).outcome =
      .apiError 401 := by
  have h := c1_single_auth_retry true (.response 401 none) (.response 401 none)
  exact ⟨h.2.1 none rfl, h.2.2.1 none rfl rfl, h.2.2.2.1 none none rfl rfl rfl⟩

/-- C5: When the traffic envelope lacks a truthy success flag or carries
no data object, `get_client_traffic` returns the zeroed sample (it is a
total function, never an error); and on every envelope the returned total
equals up plus down. -/
theorem c5_traffic_zero_or_sum (result : Json) :
    ((jget result "success").truthy = false ∨ (jget result "obj").truthy = false →
      get_client_traffic result = ⟨0, 0, 0⟩) ∧
    (get_client_traffic result).total =
      (get_client_traffic result).up + (get_client_traffic result).down := by
  constructor
  · intro h
    simp only [get_client_traffic]
    rcases h with h | h <;> simp [h]
  · simp only [get_client_traffic]
    split <;> rfl

/-- Witness for C5: a response with a success flag but no data object
yields the zeroed sample. -/
theorem c5_traffic_zero_or_sum_witness :
    get_client_traffic (.obj [("success", .bool true)]) = ⟨0, 0, 0⟩ :=
  (c5_traffic_zero_or_sum (.obj [("success", .bool true)])).1 (Or.inr rfl)

/-- C10: When the inbound-listing envelope's success flag is falsy,
`get_inbound_list` returns the empty list; consequently the cross-inbound
scan answers "not found" exactly as on an empty panel,
`delete_client_from_all_inbounds` reports `false`, and the `create_client`
pre-check passes so the create endpoint is contacted. -/
theorem c10_failed_listing_as_empty (decode : String → Option Json)
    (email : String) (resp deleteResp : Json)
    (h : (jget resp "success").truthy = false) :
    get_inbound_list resp = [] ∧
    find_client_in_all_inbounds decode resp email = none ∧
    find_client_in_all_inbounds decode resp email =
      findClientInInbounds decode email [] ∧
    delete_client_from_all_inbounds decode resp email deleteResp = false ∧
    ∀ addResp, (create_client decode resp email addResp).contactedCreateEndpoint
      = true := by
  have hlist : get_inbound_list resp = [] := by
    simp [get_inbound_list, h]
  have hfind : find_client_in_all_inbounds decode resp email = none := by
    simp [find_client_in_all_inbounds, hlist, findClientInInbounds]
  refine ⟨hlist, hfind, by rw [hfind]; rfl, ?_, ?_⟩
  · simp [delete_client_from_all_inbounds, hfind]
  · intro addResp
    simp only [create_client, hfind]
    split
    · rfl
    · split
      · split <;> rfl
      · rfl

/-- Witness for C10 at a concrete failed listing envelope. -/
theorem c10_failed_listing_as_empty_witness :
    get_inbound_list (.obj [("success", .bool false)]) = [] ∧
    find_client_in_all_inbounds (fun _ => none) (.obj [("success", .bool false)])
      "ann@x" = none :=
  have h := c10_failed_listing_as_empty (fun _ => none) "ann@x"
    (.obj [("success", .bool false)]) .null rfl
  ⟨h.1, h.2.1⟩

/-- One inbound's decoded client list, under a fixed decode result. -/
theorem decodedClients_eq_of_decode {decode : String → Option Json} {inbound d : Json}
    (h : decode (inboundSettingsStr inbound) = some d) :
    decodedClients decode inbound = jelems (jgetD d "clients" (.arr [])) := by
  simp [decodedClients, h]

/-- Characterization of the scan loop: it returns the hit built from the
first inbound (in list order) whose decoded client list contains the
label, and `none` when no inbound does. -/
theorem findClientInInbounds_eq (decode : String → Option Json) (email : String)
    (inbounds : List Json) :
    findClientInInbounds decode email inbounds =
      match inbounds.find? (fun ib => inboundHasClient decode email ib) with
      | none => none
      | some ib =>
        some { inbound_id := jget ib "id"
               inbound_remark := jgetD ib "remark" (.str "Unknown")
               client := ((decodedClients decode ib).find?
                 (fun c => isEmailMatch c email)).getD .null } := by
  induction inbounds with
  | nil => rfl
  | cons ib rest ih =>
    cases hdec : decode (inboundSettingsStr ib) with
    | none =>
      have hhas : inboundHasClient decode email ib = false := by
        simp [inboundHasClient, decodedClients, hdec]
      rw [List.find?_cons_of_neg _ (by simp [hhas])]
      simpa [findClientInInbounds, hdec] using ih
    | some d =>
      have hdc : decodedClients decode ib = jelems (jgetD d "clients" (.arr [])) :=
        decodedClients_eq_of_decode hdec
      cases hf : (jelems (jgetD d "clients" (.arr []))).find?
          (fun c => isEmailMatch c email) with
      | some c =>
        have hhas : inboundHasClient decode email ib = true := by
          simp only [inboundHasClient, hdc, List.any_eq_true]
          have hp := List.find?_some hf
          exact ⟨c, List.mem_of_find?_eq_some hf, by simpa using hp⟩
        rw [List.find?_cons_of_pos _ hhas]
        simp [findClientInInbounds, hdec, hf, hdc]
      | none =>
        have hhas : inboundHasClient decode email ib = false := by
          have hnone := List.find?_eq_none.mp hf
          simp only [inboundHasClient, hdc]
          rw [← Bool.not_eq_true, List.any_eq_true]
          rintro ⟨x, hx, hpx⟩
          exact hnone x hx hpx
        rw [List.find?_cons_of_neg _ (by simp [hhas])]
        simpa [findClientInInbounds, hdec, hf] using ih

/-- C3: `find_client_in_all_inbounds` returns the hit from the first
inbound, in listing order, whose decoded client list contains a client
labelled `email` (the hit carrying that inbound's id, its remark, and the
first matching client), and `none` when no inbound contains the label. -/
theorem c3_find_first_inbound (decode : String → Option Json) (listResp : Json)
    (email : String) :
    find_client_in_all_inbounds decode listResp email =
      match (get_inbound_list listResp).find?
          (fun ib => inboundHasClient decode email ib) with
      | none => none
      | some ib =>
        some { inbound_id := jget ib "id"
               inbound_remark := jgetD ib "remark" (.str "Unknown")
               client := ((decodedClients decode ib).find?
                 (fun c => isEmailMatch c email)).getD .null } :=
  findClientInInbounds_eq decode email (get_inbound_list listResp)

/-- C4: An inbound whose settings blob fails to decode is skipped by the
scan — deleting it from the list does not change the result, so a
malformed blob never fails the call — and a label carried by a
well-formed inbound later in the list is still found. -/
theorem c4_malformed_settings_skipped (decode : String → Option Json)
    (email : String) (pre post : List Json) (ib : Json)
    (hbad : decode (inboundSettingsStr ib) = none) :
    findClientInInbounds decode email (pre ++ ib :: post) =
      findClientInInbounds decode email (pre ++ post) ∧
    (∀ ib' ∈ post, inboundHasClient decode email ib' = true →
      (findClientInInbounds decode email (pre ++ ib :: post)).isSome = true) := by
  constructor
  · induction pre with
    | nil => simp [findClientInInbounds, hbad]
    | cons p pre' ih =>
      cases hdec : decode (inboundSettingsStr p) with
      | none => simpa [findClientInInbounds, hdec] using ih
      | some d =>
        cases hf : (jelems (jgetD d "clients" (.arr []))).find?
            (fun c => isEmailMatch c email) with
        | some c => simp [findClientInInbounds, hdec, hf]
        | none => simpa [findClientInInbounds, hdec, hf] using ih
  · intro ib' hmem hhas
    rw [findClientInInbounds_eq]
    have : ((pre ++ ib :: post).find?
        (fun x => inboundHasClient decode email x)).isSome = true := by
      rw [List.find?_isSome]
      exact ⟨ib', by simp [hmem], hhas⟩
    cases hfind : (pre ++ ib :: post).find?
        (fun x => inboundHasClient decode email x) with
    | none => rw [hfind] at this; exact absurd this (by simp)
    | some x => rfl

/-- Witness for C4: a malformed first inbound is skipped and the label in
the following well-formed inbound is still found. -/
theorem c4_malformed_settings_skipped_witness :
    (findClientInInbounds
      (fun s => if s == "GOOD"
        then some (.obj [("clients", .arr [.obj [("email", .str "bob@x")]])])
        else none)
      "bob@x"
      ([] ++ (.obj [("settings", .str "BAD")]) ::
        [.obj [("settings", .str "GOOD")]])).isSome = true :=
  (c4_malformed_settings_skipped
      (fun s => if s == "GOOD"
        then some (.obj [("clients", .arr [.obj [("email", .str "bob@x")]])])
        else none)
      "bob@x" [] [.obj [("settings", .str "GOOD")]]
      (.obj [("settings", .str "BAD")]) rfl).2
    (.obj [("settings", .str "GOOD")]) (List.mem_singleton.mpr rfl) rfl

/-- C2: A second `create_client` with an already-used label fails with the
duplicate-client error, whichever inbound holds the first use.  When the
pre-scan finds the label in some inbound, the call fails carrying that
inbound's remark without contacting the create endpoint; when instead the
provider reports the duplicate in its failure message, the conflicting
label is extracted from the message and reported in the same
duplicate-error kind; and the extraction really recovers the label from
the provider's message shape. -/
theorem c2_duplicate_client (decode : String → Option Json) (listResp : Json)
    (email : String) (addResp : Json) :
    (∀ info, find_client_in_all_inbounds decode listResp email = some info →
      create_client decode listResp email addResp =
        ⟨.error (.duplicateClient email info.inbound_remark), false⟩) ∧
    (∀ dup, find_client_in_all_inbounds decode listResp email = none →
      (jget addResp "success").truthy = false →
      strContains "Duplicate email" (jmsg addResp) = true →
      extractDuplicateEmail (jmsg addResp) = some dup →
      create_client decode listResp email addResp =
        ⟨.error (.duplicateClient email (.str dup)), true⟩) ∧
    extractDuplicateEmail "Duplicate email: bob@example.com" =
      some "bob@example.com" := by
  refine ⟨?_, ?_, by decide⟩
  · intro info hfind
    simp [create_client, hfind]
  · intro dup hfind hsucc hdup hext
    simp [create_client, hfind, hsucc, hdup, hext]

/-- Witness for C2 at concrete runs: a pre-scan hit fails without
contacting the endpoint, and a provider-reported duplicate yields the
extracted label. -/
theorem c2_duplicate_client_witness :
    create_client
      (fun s => if s == "S"
        then some (.obj [("clients", .arr [.obj [("email", .str "ann@x")]])])
        else none)
      (.obj [("success", .bool true),
             ("obj", .arr [.obj [("settings", .str "S"), ("remark", .str "Main")]])])
      "ann@x" .null =
      ⟨.error (.duplicateClient "ann@x" (.str "Main")), false⟩ ∧
    create_client (fun _ => none) (.obj [("success", .bool false)]) "ann@x"
      (.obj [("success", .bool false),
             ("msg", .str "Duplicate email: ann@x")]) =
      ⟨.error (.duplicateClient "ann@x" (.str "ann@x")), true⟩ := by
  constructor
  · exact (c2_duplicate_client
      (fun s => if s == "S"
        then some (.obj [("clients", .arr [.obj [("email", .str "ann@x")]])])
        else none)
      (.obj [("success", .bool true),
             ("obj", .arr [.obj [("settings", .str "S"), ("remark", .str "Main")]])])
      "ann@x" .null).1
      ⟨.null, .str "Main", .obj [("email", .str "ann@x")]⟩ rfl
  · exact ((c2_duplicate_client (fun _ => none) (.obj [("success", .bool false)])
      "ann@x"
      (.obj [("success", .bool false),
             ("msg", .str "Duplicate email: ann@x")])).2).1
      "ann@x" rfl rfl rfl rfl

/-- A list is a prefix of itself followed by anything. -/
theorem isPrefixL_append_self (p t : List Char) : isPrefixL p (p ++ t) = true := by
  induction p with
  | nil => rfl
  | cons a as ih => simp [isPrefixL, ih]

/-- Every character of a prefix occurs in the list. -/
theorem mem_of_isPrefixL {p l : List Char} (h : isPrefixL p l = true) :
    ∀ x ∈ p, x ∈ l := by
  induction p generalizing l with
  | nil => intro x hx; cases hx
  | cons a as ih =>
    cases l with
    | nil => cases h
    | cons b bs =>
      rw [isPrefixL, Bool.and_eq_true] at h
      intro x hx
      rcases List.mem_cons.mp hx with rfl | hx
      · exact List.mem_cons.mpr (Or.inl (eq_of_beq h.1))
      · exact List.mem_cons.mpr (Or.inr (ih h.2 x hx))

/-- `replace` steps over a position where the pattern does not match. -/
theorem replaceAllL_cons_no_match (pat repl : List Char) (c : Char)
    (rest : List Char) (h : isPrefixL pat (c :: rest) = false) :
    replaceAllL pat repl (c :: rest) = c :: replaceAllL pat repl rest := by
  rw [replaceAllL]
  simp [h]

/-- `replace` rewrites a position where the pattern matches. -/
theorem replaceAllL_cons_match (pat repl rest : List Char) (hne : pat ≠ []) :
    replaceAllL pat repl (pat ++ rest) = repl ++ replaceAllL pat repl rest := by
  cases pat with
  | nil => exact absurd rfl hne
  | cons a as =>
    rw [List.cons_append, replaceAllL]
    have hc : (decide (1 ≤ (a :: as).length) &&
        isPrefixL (a :: as) (a :: (as ++ rest))) = true := by
      rw [Bool.and_eq_true, decide_eq_true_eq]
      exact ⟨Nat.succ_le_succ (Nat.zero_le _),
        by rw [← List.cons_append]; exact isPrefixL_append_self _ _⟩
    rw [if_pos hc]
    simp only [List.length_cons, Nat.add_sub_cancel, List.drop_left]

/-- A list free of some character of the pattern is left unchanged by
`replace`. -/
theorem replaceAllL_id_of_no_char {a : Char} {pat : List Char} (repl : List Char)
    (ha : a ∈ pat) :
    ∀ l : List Char, (∀ c ∈ l, c ≠ a) → replaceAllL pat repl l = l := by
  intro l
  induction l with
  | nil => intro _; rw [replaceAllL]
  | cons c rest ih =>
    intro hl
    have hnp : isPrefixL pat (c :: rest) = false := by
      cases hp : isPrefixL pat (c :: rest) with
      | false => rfl
      | true =>
        exact absurd rfl (hl a (mem_of_isPrefixL hp a ha))
    rw [replaceAllL_cons_no_match _ _ _ _ hnp,
      ih (fun x hx => hl x (List.mem_cons.mpr (Or.inr hx)))]

/-- `split(":")[0]` keeps exactly the part before the first colon. -/
theorem takeWhile_no_colon (a b : List Char) (h : ∀ c ∈ a, c ≠ ':') :
    (a ++ ':' :: b).takeWhile (fun c => c != ':') = a := by
  induction a with
  | nil => simp [List.takeWhile_cons]
  | cons c rest ih =>
    have hc : (c != ':') = true := by
      simpa using h c (List.mem_cons.mpr (Or.inl rfl))
    rw [List.cons_append, List.takeWhile_cons, hc,
      ih (fun x hx => h x (List.mem_cons.mpr (Or.inr hx)))]
    simp

/-- The `https://` pattern never matches inside an `http://` prefix. -/
theorem replaceAll_https_skips_http (rest : List Char) :
    replaceAllL "https://".data [] ('h' :: 't' :: 't' :: 'p' :: ':' :: '/' :: '/' :: rest) =
      'h' :: 't' :: 't' :: 'p' :: ':' :: '/' :: '/' :: replaceAllL "https://".data [] rest := by
  rw [replaceAllL_cons_no_match "https://".data [] 'h'
      ('t' :: 't' :: 'p' :: ':' :: '/' :: '/' :: rest) rfl,
    replaceAllL_cons_no_match "https://".data [] 't'
      ('t' :: 'p' :: ':' :: '/' :: '/' :: rest) rfl,
    replaceAllL_cons_no_match "https://".data [] 't'
      ('p' :: ':' :: '/' :: '/' :: rest) rfl,
    replaceAllL_cons_no_match "https://".data [] 'p'
      (':' :: '/' :: '/' :: rest) rfl,
    replaceAllL_cons_no_match "https://".data [] ':'
      ('/' :: '/' :: rest) rfl,
    replaceAllL_cons_no_match "https://".data [] '/'
      ('/' :: rest) rfl,
    replaceAllL_cons_no_match "https://".data [] '/' rest rfl]

/-- On a base address of the configured shape `scheme://host:port`, the
fallback computation strips the scheme and the port and keeps the host. -/
theorem baseUrlHost_scheme_host_port (host portPart : String)
    (hh : ∀ c ∈ host.data, c ≠ ':' ∧ c ≠ '/')
    (hp : ∀ c ∈ portPart.data, c ≠ '/') :
    baseUrlHost ("https://" ++ host ++ ":" ++ portPart) = host ∧
    baseUrlHost ("http://" ++ host ++ ":" ++ portPart) = host := by
  obtain ⟨hostL⟩ := host
  obtain ⟨ppL⟩ := portPart
  have hrest : ∀ c ∈ hostL ++ ':' :: ppL, c ≠ '/' := by
    intro c hc
    rcases List.mem_append.mp hc with hc | hc
    · exact (hh c hc).2
    · rcases List.mem_cons.mp hc with rfl | hc
      · decide
      · exact hp c hc
  have hid1 : replaceAllL "https://".data [] (hostL ++ ':' :: ppL) =
      hostL ++ ':' :: ppL :=
    replaceAllL_id_of_no_char [] (by decide : '/' ∈ "https://".data) _ hrest
  have hid2 : replaceAllL "http://".data [] (hostL ++ ':' :: ppL) =
      hostL ++ ':' :: ppL :=
    replaceAllL_id_of_no_char [] (by decide : '/' ∈ "http://".data) _ hrest
  have htake : (hostL ++ ':' :: ppL).takeWhile (fun c => c != ':') = hostL :=
    takeWhile_no_colon _ _ (fun c hc => (hh c hc).1)
  constructor
  · have hdata : ("https://" ++ ⟨hostL⟩ ++ ":" ++ (⟨ppL⟩ : String)).data =
        "https://".data ++ (hostL ++ ':' :: ppL) := by
      simp [String.data_append]
    show String.mk _ = _
    rw [hdata, replaceAllL_cons_match _ _ _ (by decide), List.nil_append,
      hid1, hid2, htake]
  · have hdata : ("http://" ++ ⟨hostL⟩ ++ ":" ++ (⟨ppL⟩ : String)).data =
        'h' :: 't' :: 't' :: 'p' :: ':' :: '/' :: '/' :: (hostL ++ ':' :: ppL) := by
      simp [String.data_append]
    show String.mk _ = _
    rw [hdata, replaceAll_https_skips_http, hid1]
    have : ('h' :: 't' :: 't' :: 'p' :: ':' :: '/' :: '/' :: (hostL ++ ':' :: ppL)) =
        "http://".data ++ (hostL ++ ':' :: ppL) := rfl
    rw [this, replaceAllL_cons_match _ _ _ (by decide), List.nil_append, hid2,
      htake]

/-- C6: All three protocol builders place the same server address in the
URI (the vless/trojan authority part, the vmess `add` field): the
inbound's `listen` value, unless it is empty or the `0.0.0.0` wildcard, in
which case the host portion of the panel's base address — scheme stripped
and port stripped — is used instead. -/
theorem c6_server_resolution (base_url : String)
    (client inbound stream_settings port : Json) (network security : String)
    (l host portPart : String) :
    (vless_server base_url inbound = vmess_server base_url inbound ∧
      vmess_server base_url inbound = trojan_server base_url inbound) ∧
    (build_vless_link base_url client inbound stream_settings port network security =
      "vless://" ++ pyStr (jget client "id") ++ "@" ++ vless_server base_url inbound
        ++ ":" ++ pyStr port ++ "?"
        ++ urlencode "/:," (vless_params stream_settings network security
          (jgetD client "flow" (.str "")))
        ++ "#" ++ pyQuote "/" (jstrD client "email" "")) ∧
    (build_trojan_link base_url client inbound stream_settings port network security =
      "trojan://" ++ pyStr (jgetD client "password" (.str "")) ++ "@"
        ++ trojan_server base_url inbound ++ ":" ++ pyStr port ++ "?"
        ++ urlencode "" ([("type", network), ("security", security)] ++
            (if security == "tls" then
              (if (jgetD (jgetD stream_settings "tlsSettings" (.obj []))
                  "serverName" (.str "")).truthy
                then [("sni", pyStr (jgetD (jgetD stream_settings "tlsSettings"
                  (.obj [])) "serverName" (.str "")))] else [])
            else []))
        ++ "#" ++ pyQuote "/" (jstrD client "email" "")) ∧
    ((vmess_config base_url client inbound stream_settings port network security).lookup
      "add" = some (.str (vmess_server base_url inbound))) ∧
    (jgetD inbound "listen" (.str "0.0.0.0") = .str l →
      (l ≠ "" → l ≠ "0.0.0.0" → vless_server base_url inbound = l) ∧
      ((l = "" ∨ l = "0.0.0.0") →
        (∀ c ∈ host.data, c ≠ ':' ∧ c ≠ '/') →
        (∀ c ∈ portPart.data, c ≠ '/') →
        vless_server ("https://" ++ host ++ ":" ++ portPart) inbound = host ∧
        vless_server ("http://" ++ host ++ ":" ++ portPart) inbound = host)) := by
  refine ⟨⟨rfl, rfl⟩, rfl, rfl, ?_, ?_⟩
  · show (vmess_config base_url client inbound stream_settings port network security).lookup
      "add" = some (.str (vmess_server base_url inbound))
    rw [vmess_config]
    cases hws : network == "ws" <;> simp [hws, setKey, List.lookup]
  · intro hlisten
    constructor
    · intro h1 h2
      have hw : isWildcardListen (jgetD inbound "listen" (.str "0.0.0.0")) = false := by
        rw [hlisten, isWildcardListen]
        simp [h1, h2]
      rw [vless_server, hw, hlisten]
      rfl
    · intro hl hh hp
      have hw : isWildcardListen (jgetD inbound "listen" (.str "0.0.0.0")) = true := by
        rw [hlisten, isWildcardListen]
        rcases hl with rfl | rfl <;> simp
      have hbase := baseUrlHost_scheme_host_port host portPart hh hp
      constructor
      · rw [vless_server, hw]
        exact hbase.1
      · rw [vless_server, hw]
        exact hbase.2

/-- Witness for C6 at a concrete inbound with a wildcard listen address
and a concrete base address. -/
theorem c6_server_resolution_witness :
    vless_server "https://panel.example.com:2053"
      (.obj [("listen", .str "0.0.0.0")]) = "panel.example.com" ∧
    vless_server "http://panel.example.com:2053"
      (.obj [("listen", .str "0.0.0.0")]) = "panel.example.com" :=
  ((c6_server_resolution "https://panel.example.com:2053" .null
      (.obj [("listen", .str "0.0.0.0")]) .null .null "tcp" "none"
      "0.0.0.0" "panel.example.com" "2053").2.2.2.2 rfl).2
    (Or.inr rfl) (by decide) (by decide)

/-- A prefix stays a prefix after extending the list. -/
theorem isPrefixL_extend {p l : List Char} (t : List Char)
    (h : isPrefixL p l = true) : isPrefixL p (l ++ t) = true := by
  induction p generalizing l with
  | nil => rfl
  | cons a as ih =>
    cases l with
    | nil => cases h
    | cons b bs =>
      rw [isPrefixL, Bool.and_eq_true] at h
      rw [List.cons_append, isPrefixL, Bool.and_eq_true]
      exact ⟨h.1, ih h.2⟩

/-- A list always contains itself as a substring. -/
theorem hasSubstrL_self (p : List Char) : hasSubstrL p p = true := by
  have hp : isPrefixL p p = true := by
    have := isPrefixL_append_self p []
    rwa [List.append_nil] at this
  cases p with
  | nil => rfl
  | cons a as => rw [hasSubstrL, hp, Bool.true_or]

/-- Substring occurrence survives appending on the right. -/
theorem hasSubstrL_append_left (p a b : List Char)
    (h : hasSubstrL p a = true) : hasSubstrL p (a ++ b) = true := by
  induction a with
  | nil =>
    rw [hasSubstrL] at h
    cases p with
    | nil =>
      cases b with
      | nil => rfl
      | cons c cs => rw [List.nil_append, hasSubstrL]; rfl
    | cons q qs => cases h
  | cons c cs ih =>
    rw [hasSubstrL, Bool.or_eq_true] at h
    rw [List.cons_append, hasSubstrL, Bool.or_eq_true]
    rcases h with h | h
    · exact Or.inl (by rw [← List.cons_append]; exact isPrefixL_extend b h)
    · exact Or.inr (ih h)

/-- Substring occurrence survives appending on the left. -/
theorem hasSubstrL_append_right (p a b : List Char)
    (h : hasSubstrL p b = true) : hasSubstrL p (a ++ b) = true := by
  induction a with
  | nil => simpa using h
  | cons c cs ih =>
    rw [List.cons_append, hasSubstrL, Bool.or_eq_true]
    exact Or.inr ih

/-- `strContains` survives appending on the right. -/
theorem strContains_append_left (p a b : String)
    (h : strContains p a = true) : strContains p (a ++ b) = true := by
  rw [strContains, String.data_append]
  exact hasSubstrL_append_left _ _ _ h

/-- `strContains` survives appending on the left. -/
theorem strContains_append_right (p a b : String)
    (h : strContains p b = true) : strContains p (a ++ b) = true := by
  rw [strContains, String.data_append]
  exact hasSubstrL_append_right _ _ _ h

/-- Every parameter pair contributes its encoded `k=v` item as a substring
of the encoded query string. -/
theorem strContains_urlencode (safe : String) (p : String × String) :
    ∀ params : List (String × String), p ∈ params →
      strContains (urlencodePair safe p) (urlencode safe params) = true := by
  intro params
  induction params with
  | nil => intro h; cases h
  | cons q rest ih =>
    intro hmem
    rcases List.mem_cons.mp hmem with rfl | hmem
    · cases rest with
      | nil => exact hasSubstrL_self _
      | cons r rs =>
        rw [urlencode]
        exact strContains_append_left _ _ _
          (strContains_append_left _ _ _ (by exact hasSubstrL_self _))
    · cases rest with
      | nil => cases hmem
      | cons r rs =>
        rw [urlencode]
        exact strContains_append_right _ _ _ (ih hmem)

/-- Characters that `quote` leaves alone produce an unchanged
`quote_plus` output. -/
theorem pyQuotePlus_id_of_safe (s : String)
    (h : s.data.all (quoteSafeChar "/:,".data) = true) :
    pyQuotePlus "/:," s = s := by
  have hall : ∀ c ∈ s.data, quoteSafeChar "/:,".data c = true :=
    fun c hc => List.all_eq_true.mp h c hc
  have hsp : s.data.contains ' ' = false := by
    cases hc : s.data.contains ' ' with
    | false => rfl
    | true =>
      have : ' ' ∈ s.data := by simpa using hc
      have := hall ' ' this
      simp [quoteSafeChar] at this
  rw [pyQuotePlus, hsp]
  obtain ⟨sl⟩ := s
  show String.mk _ = _
  have : ∀ l : List Char, (∀ c ∈ l, quoteSafeChar "/:,".data c = true) →
      ((l.map (fun c => if quoteSafeChar "/:,".data c then [c]
        else ((utf8Bytes c.toNat).map percentByte).flatten)).flatten) = l := by
    intro l
    induction l with
    | nil => intro _; rfl
    | cons c rest ihl =>
      intro hl
      rw [List.map_cons, List.flatten_cons,
        if_pos (hl c (List.mem_cons.mpr (Or.inl rfl))),
        ihl (fun x hx => hl x (List.mem_cons.mpr (Or.inr hx)))]
      rfl
  exact congrArg String.mk (this sl (by simpa using hall))

/-- Membership in a conditional list comes from one of the branches. -/
theorem mem_of_mem_ite {α : Type} {x : α} {c : Prop} [Decidable c]
    {l₁ l₂ : List α} (h : x ∈ (if c then l₁ else l₂)) : x ∈ l₁ ∨ x ∈ l₂ := by
  split at h
  · exact Or.inl h
  · exact Or.inr h

/-- The network block of the vless query never introduces an `alpn` key. -/
theorem vless_network_params_no_alpn (ss : Json) (network : String) :
    ∀ x ∈ vless_network_params ss network, x.1 ≠ "alpn" := by
  intro x hx
  rw [vless_network_params] at hx
  dsimp only at hx
  split at hx
  · rcases List.mem_append.mp hx with h | h
    · simp only [List.mem_singleton] at h
      subst h; simp
    · rcases mem_of_mem_ite h with h | h
      · simp only [List.mem_singleton] at h
        subst h; simp
      · cases h
  · split at hx
    · rcases mem_of_mem_ite hx with h | h
      · simp only [List.mem_singleton] at h
        subst h; simp
      · cases h
    · split at hx
      · rcases mem_of_mem_ite hx with h | h
        · cases h
        · simp only [List.mem_singleton] at h
          subst h; simp
      · cases hx

/-- C7: With `security=reality` and reality settings carrying
`serverNames=["example.com"]`, `shortIds=["ab"]` and a non-empty
`publicKey` K of URL-safe characters, the vless query parameters contain
`sni=example.com` (the first server name), `sid=ab` (the first short id)
and `pbk=K`, contain no `alpn` parameter, and those three items occur
literally in the encoded query string and hence in the built link. -/
theorem c7_reality_link_params (ss flow : Json) (network K : String)
    (hsn : jgetD (jgetD ss "realitySettings" (.obj [])) "serverNames" (.arr [])
      = .arr [.str "example.com"])
    (hsid : jgetD (jgetD ss "realitySettings" (.obj [])) "shortIds" (.arr [])
      = .arr [.str "ab"])
    (hpbk : jgetD (jgetD ss "realitySettings" (.obj [])) "publicKey" (.str "")
      = .str K)
    (hK : K ≠ "")
    (hKsafe : K.data.all (quoteSafeChar "/:,".data) = true) :
    (("sni", "example.com") ∈ vless_params ss network "reality" flow ∧
     ("sid", "ab") ∈ vless_params ss network "reality" flow ∧
     ("pbk", K) ∈ vless_params ss network "reality" flow) ∧
    "alpn" ∉ (vless_params ss network "reality" flow).map Prod.fst ∧
    (strContains "sni=example.com"
        (urlencode "/:," (vless_params ss network "reality" flow)) = true ∧
     strContains "sid=ab"
        (urlencode "/:," (vless_params ss network "reality" flow)) = true ∧
     strContains ("pbk=" ++ K)
        (urlencode "/:," (vless_params ss network "reality" flow)) = true) ∧
    (∀ base client inbound port,
      jgetD client "flow" (.str "") = flow →
      strContains "sni=example.com"
        (build_vless_link base client inbound ss port network "reality") = true ∧
      strContains "sid=ab"
        (build_vless_link base client inbound ss port network "reality") = true ∧
      strContains ("pbk=" ++ K)
        (build_vless_link base client inbound ss port network "reality") = true) := by
  have hKtruthy : (Json.str K).truthy = true := by simp [Json.truthy, hK]
  have hsec : vless_security_params ss "reality" =
      ([("security", "reality"), ("pbk", K)]
        ++ (if (jgetD (jgetD ss "realitySettings" (.obj [])) "fingerprint"
              (.str "")).truthy
            then [("fp", pyStr (jgetD (jgetD ss "realitySettings" (.obj []))
              "fingerprint" (.str "")))] else [])
        ++ [("sni", "example.com"), ("sid", "ab")]
        ++ (if (jgetD (jgetD ss "realitySettings" (.obj [])) "spiderX"
              (.str "")).truthy
            then [("spx", pyQuote "/" (pyStr (jgetD (jgetD ss "realitySettings"
              (.obj [])) "spiderX" (.str ""))))] else [])) := by
    rw [vless_security_params]
    simp only [show ("reality" == "tls") = false from rfl,
      show ("reality" == "reality") = true from rfl, if_false, if_true,
      Bool.false_eq_true, hsn, hsid, hpbk, hKtruthy, jelems]
    simp [pyStr]
  have hmem : ("sni", "example.com") ∈ vless_params ss network "reality" flow ∧
      ("sid", "ab") ∈ vless_params ss network "reality" flow ∧
      ("pbk", K) ∈ vless_params ss network "reality" flow := by
    refine ⟨?_, ?_, ?_⟩ <;>
      simp [vless_params, hsec, List.mem_append]
  have hkeys : ∀ x ∈ vless_params ss network "reality" flow, x.1 ≠ "alpn" := by
    intro x hx
    rw [vless_params] at hx
    rw [hsec] at hx
    rcases List.mem_append.mp hx with hx | hx
    · rcases List.mem_append.mp hx with hx | hx
      · rcases List.mem_append.mp hx with hx | hx
        · rcases List.mem_cons.mp hx with h | h
          · subst h; simp
          · simp only [List.mem_singleton] at h
            subst h; simp
        · rcases List.mem_append.mp hx with hx | hx
          · rcases List.mem_append.mp hx with hx | hx
            · rcases List.mem_append.mp hx with hx | hx
              · rcases List.mem_cons.mp hx with h | h
                · subst h; simp
                · simp only [List.mem_singleton] at h
                  subst h; simp
              · rcases mem_of_mem_ite hx with h | h
                · simp only [List.mem_singleton] at h
                  subst h; simp
                · cases h
            · rcases List.mem_cons.mp hx with h | h
              · subst h; simp
              · simp only [List.mem_singleton] at h
                subst h; simp
          · rcases mem_of_mem_ite hx with h | h
            · simp only [List.mem_singleton] at h
              subst h; simp
            · cases h
      · rcases mem_of_mem_ite hx with h | h
        · simp only [List.mem_singleton] at h
          subst h; simp
        · cases h
    · exact vless_network_params_no_alpn ss network x hx
  have halpn : "alpn" ∉ (vless_params ss network "reality" flow).map Prod.fst := by
    intro h
    obtain ⟨x, hx, hfst⟩ := List.mem_map.mp h
    exact hkeys x hx hfst
  have hpair_sni : urlencodePair "/:," ("sni", "example.com") = "sni=example.com" := rfl
  have hpair_sid : urlencodePair "/:," ("sid", "ab") = "sid=ab" := rfl
  have hpair_pbk : urlencodePair "/:," ("pbk", K) = "pbk=" ++ K := by
    rw [urlencodePair, pyQuotePlus_id_of_safe K hKsafe]
    rfl
  have hqs : strContains "sni=example.com"
        (urlencode "/:," (vless_params ss network "reality" flow)) = true ∧
      strContains "sid=ab"
        (urlencode "/:," (vless_params ss network "reality" flow)) = true ∧
      strContains ("pbk=" ++ K)
        (urlencode "/:," (vless_params ss network "reality" flow)) = true := by
    refine ⟨?_, ?_, ?_⟩
    · rw [← hpair_sni]
      exact strContains_urlencode _ _ _ hmem.1
    · rw [← hpair_sid]
      exact strContains_urlencode _ _ _ hmem.2.1
    · rw [← hpair_pbk]
      exact strContains_urlencode _ _ _ hmem.2.2
  refine ⟨hmem, halpn, hqs, ?_⟩
  intro base client inbound port hflow
  have hlink : build_vless_link base client inbound ss port network "reality" =
      ((("vless://" ++ pyStr (jget client "id") ++ "@"
          ++ vless_server base inbound ++ ":" ++ pyStr port ++ "?")
        ++ urlencode "/:," (vless_params ss network "reality" flow)) ++ "#")
        ++ pyQuote "/" (jstrD client "email" "") := by
    rw [build_vless_link, hflow]
  rw [hlink]
  refine ⟨?_, ?_, ?_⟩ <;>
    exact strContains_append_left _ _ _ (strContains_append_left _ _ _
      (strContains_append_right _ _ _ (by
        first
        | exact hqs.1
        | exact hqs.2.1
        | exact hqs.2.2)))

/-- Witness for C7 at a concrete reality inbound. -/
theorem c7_reality_link_params_witness :
    ("sni", "example.com") ∈ vless_params
      (.obj [("realitySettings", .obj
        [("publicKey", .str "K1"), ("serverNames", .arr [.str "example.com"]),
         ("shortIds", .arr [.str "ab"])])])
      "tcp" "reality" (.str "") ∧
    "alpn" ∉ (vless_params
      (.obj [("realitySettings", .obj
        [("publicKey", .str "K1"), ("serverNames", .arr [.str "example.com"]),
         ("shortIds", .arr [.str "ab"])])])
      "tcp" "reality" (.str "")).map Prod.fst :=
  have h := c7_reality_link_params
    (.obj [("realitySettings", .obj
      [("publicKey", .str "K1"), ("serverNames", .arr [.str "example.com"]),
       ("shortIds", .arr [.str "ab"])])])
    (.str "") "tcp" "K1" rfl rfl rfl (by decide) (by decide)
  ⟨h.1.1, h.2.1⟩

/-- Updating a value in place never changes the key sequence. -/
theorem map_fst_setKey (l : List (String × Json)) (k : String) (v : Json) :
    (setKey l k v).map Prod.fst = l.map Prod.fst := by
  rw [setKey, List.map_map]
  apply List.map_congr_left
  intro p _
  by_cases h : p.1 = k
  · simp [h]
  · simp [h]

/-- C8: The vmess link is `vmess://` followed by the base64 encoding of
the JSON dump of the config dict; that dict carries exactly the eleven
keys `v,ps,add,port,id,aid,net,type,host,path,tls` in order; `host` and
`path` stay empty unless the transport is `ws`, in which case they are
populated from the ws settings (for path `/foo` and host `h.example` the
dict carries `net="ws"`, `path="/foo"`, `host="h.example"`); and `tls`
carries `"tls"` exactly when the security is `tls`, the empty string
otherwise. -/
theorem c8_vmess_config_shape (base_url : String) (client inbound ss port : Json)
    (network security : String) :
    (build_vmess_link base_url client inbound ss port network security =
      "vmess://" ++ b64encode (jsonDumps (.obj
        (vmess_config base_url client inbound ss port network security)))) ∧
    ((vmess_config base_url client inbound ss port network security).map Prod.fst
      = ["v", "ps", "add", "port", "id", "aid", "net", "type", "host", "path",
         "tls"]) ∧
    (network ≠ "ws" →
      (vmess_config base_url client inbound ss port network security).lookup
        "host" = some (.str "") ∧
      (vmess_config base_url client inbound ss port network security).lookup
        "path" = some (.str "")) ∧
    (security ≠ "tls" →
      (vmess_config base_url client inbound ss port network security).lookup
        "tls" = some (.str "")) ∧
    (security = "tls" →
      (vmess_config base_url client inbound ss port network security).lookup
        "tls" = some (.str "tls")) ∧
    (network = "ws" →
      jgetD (jgetD ss "wsSettings" (.obj [])) "path" (.str "/") = .str "/foo" →
      jgetD (jgetD (jgetD ss "wsSettings" (.obj [])) "headers" (.obj [])) "Host"
        (.str "") = .str "h.example" →
      (vmess_config base_url client inbound ss port network security).lookup
        "net" = some (.str network) ∧
      (vmess_config base_url client inbound ss port network security).lookup
        "path" = some (.str "/foo") ∧
      (vmess_config base_url client inbound ss port network security).lookup
        "host" = some (.str "h.example")) := by
  have htls : (if security == "tls" then security else "") =
      (if security = "tls" then security else "") := by
    by_cases h : security = "tls" <;> simp [h]
  refine ⟨rfl, ?_, ?_, ?_, ?_, ?_⟩
  · rw [vmess_config]
    cases hws : (network == "ws") <;> simp [map_fst_setKey]
  · intro hnws
    have hws : (network == "ws") = false := by simp [hnws]
    rw [vmess_config, if_neg (by simp [hws])]
    exact ⟨rfl, rfl⟩
  · intro hntls
    have h : (security == "tls") = false := by simp [hntls]
    cases hws : (network == "ws") with
    | true =>
      rw [vmess_config, if_pos hws]
      simp [setKey, List.lookup, h]
    | false =>
      rw [vmess_config, if_neg (by simp [hws])]
      simp [List.lookup, h]
  · intro htls'
    subst htls'
    cases hws : (network == "ws") with
    | true =>
      rw [vmess_config, if_pos hws]
      simp [setKey, List.lookup]
    | false =>
      rw [vmess_config, if_neg (by simp [hws])]
      simp [List.lookup]
  · intro hws hpath hhost
    subst hws
    refine ⟨?_, ?_, ?_⟩ <;>
      simp [vmess_config, setKey, List.lookup, hpath, hhost]

/-- Witness for C8 at concrete ws and non-ws configurations. -/
theorem c8_vmess_config_shape_witness :
    (vmess_config "https://p.example.com:2053"
      (.obj [("id", .str "u1"), ("email", .str "a@x")])
      (.obj [("listen", .str "1.2.3.4")])
      (.obj [("wsSettings", .obj [("path", .str "/foo"),
        ("headers", .obj [("Host", .str "h.example")])])])
      (.num 443) "ws" "none").lookup "path" = some (.str "/foo") ∧
    (vmess_config "https://p.example.com:2053"
      (.obj [("id", .str "u1"), ("email", .str "a@x")])
      (.obj [("listen", .str "1.2.3.4")])
      (.obj []) (.num 443) "grpc" "none").lookup "path" = some (.str "") := by
  constructor
  · exact ((c8_vmess_config_shape "https://p.example.com:2053"
      (.obj [("id", .str "u1"), ("email", .str "a@x")])
      (.obj [("listen", .str "1.2.3.4")])
      (.obj [("wsSettings", .obj [("path", .str "/foo"),
        ("headers", .obj [("Host", .str "h.example")])])])
      (.num 443) "ws" "none").2.2.2.2.2 rfl rfl rfl).2.1
  · exact ((c8_vmess_config_shape "https://p.example.com:2053"
      (.obj [("id", .str "u1"), ("email", .str "a@x")])
      (.obj [("listen", .str "1.2.3.4")])
      (.obj []) (.num 443) "grpc" "none").2.2.1 (by decide)).2

/-- C9: `get_client_link` answers `none` — never an error — whenever the
inbound fetch is not successful, the envelope carries no inbound object,
no client in the decoded settings matches the email, or the inbound's
protocol tag is none of vless/vmess/trojan. -/
theorem c9_get_client_link_soft_fail (decode : String → Option Json)
    (base_url : String) (data : Json) (email : String) :
    ((jget data "success").truthy = false →
      get_client_link decode base_url data email = none) ∧
    ((jget data "obj").truthy = false →
      get_client_link decode base_url data email = none) ∧
    (∀ s d, jgetD (jget data "obj") "settings" (.str "\x7b\x7d") = .str s →
      decode s = some d →
      (jelems (jgetD d "clients" (.arr []))).find? (fun c => isEmailMatch c email)
        = none →
      get_client_link decode base_url data email = none) ∧
    (∀ s d target,
      jgetD (jget data "obj") "settings" (.str "\x7b\x7d") = .str s →
      decode s = some d →
      (jelems (jgetD d "clients" (.arr []))).find? (fun c => isEmailMatch c email)
        = some target →
      lowerStr (jstrD (jget data "obj") "protocol" "") ≠ "vless" →
      lowerStr (jstrD (jget data "obj") "protocol" "") ≠ "vmess" →
      lowerStr (jstrD (jget data "obj") "protocol" "") ≠ "trojan" →
      get_client_link decode base_url data email = none) := by
  refine ⟨?_, ?_, ?_, ?_⟩
  · intro hsucc
    simp [get_client_link, hsucc]
  · intro hobj
    cases hsucc : (jget data "success").truthy with
    | false => simp [get_client_link, hsucc]
    | true => simp [get_client_link, hsucc, hobj]
  · intro s d hset hdec hfind
    cases hsucc : (jget data "success").truthy with
    | false => simp [get_client_link, hsucc]
    | true =>
      cases hobj : (jget data "obj").truthy with
      | false => simp [get_client_link, hsucc, hobj]
      | true => simp [get_client_link, hsucc, hobj, hset, hdec, hfind]
  · intro s d target hset hdec hfind hv hm ht
    cases hsucc : (jget data "success").truthy with
    | false => simp [get_client_link, hsucc]
    | true =>
      cases hobj : (jget data "obj").truthy with
      | false => simp [get_client_link, hsucc, hobj]
      | true =>
        have hv' : (lowerStr (jstrD (jget data "obj") "protocol" "") == "vless")
            = false := by simp [hv]
        have hm' : (lowerStr (jstrD (jget data "obj") "protocol" "") == "vmess")
            = false := by simp [hm]
        have ht' : (lowerStr (jstrD (jget data "obj") "protocol" "") == "trojan")
            = false := by simp [ht]
        simp only [get_client_link, hsucc, hobj, hset, hdec, hfind, hv', hm',
          ht', Bool.not_true, Bool.false_eq_true, if_false]
        cases hstream : (match jgetD (jget data "obj") "streamSettings"
            (.str "\x7b\x7d") with
          | .str s => decode s
          | j => some j) with
        | none => simp [hstream]
        | some st => simp [hstream]

/-- Witness for C9 at a failed fetch and at an unsupported protocol. -/
theorem c9_get_client_link_soft_fail_witness :
    get_client_link (fun _ => none) "https://p.example.com"
      (.obj [("success", .bool false)]) "a@x" = none ∧
    get_client_link
      (fun s => if s == "S"
        then some (.obj [("clients", .arr [.obj [("email", .str "a@x")]])])
        else none)
      "https://p.example.com"
      (.obj [("success", .bool true),
             ("obj", .obj [("settings", .str "S"),
                           ("protocol", .str "shadowsocks"),
                           ("port", .num 1)])])
      "a@x" = none := by
  constructor
  · exact (c9_get_client_link_soft_fail (fun _ => none) "https://p.example.com"
      (.obj [("success", .bool false)]) "a@x").1 rfl
  · exact (c9_get_client_link_soft_fail
      (fun s => if s == "S"
        then some (.obj [("clients", .arr [.obj [("email", .str "a@x")]])])
        else none)
      "https://p.example.com"
      (.obj [("success", .bool true),
             ("obj", .obj [("settings", .str "S"),
                           ("protocol", .str "shadowsocks"),
                           ("port", .num 1)])])
      "a@x").2.2.2 "S" (.obj [("clients", .arr [.obj [("email", .str "a@x")]])])
      (.obj [("email", .str "a@x")]) rfl rfl rfl
      (by decide) (by decide) (by decide)

end XUI
